import Mathlib

/-!
Shallow embedding of the voice capture and transcription pipeline of
`src/src-tauri/src/voice.rs` (repository koe), together with theorems
settling the behavioural claims about it.

Modelling conventions:
* Rust `f32`/`f64` sample values and rate arithmetic are embedded as exact
  rationals (`ℚ`); machine floating point is idealised as exact arithmetic.
* Rust `Vec<f32>` becomes `List ℚ`; `u32` sample rates become `ℕ`.
* Network calls are external effects: the router is embedded as the function
  computing which backend a transcription attempt invokes (`Route`), and the
  HTTP requests are embedded as the record of the fields the code puts into
  them (`TranscriptionRequest`).
* The `whisper-local` cargo feature is a compile-time switch; it is embedded
  as an explicit boolean parameter `feature`.
* The RMS comparison `rms > 0.01` of the source is embedded squared, as
  `rmsSq > 1/10000`: for a nonnegative mean square `m`,
  `Real.sqrt m > 1/100 ↔ m > 1/10000`, so no square root is needed.
-/

namespace Koe

/-- Transcription configuration, from `WhisperConfig` in voice.rs lines 15-22. -/
structure WhisperConfig where
  api_key : Option String
  use_local : Bool
  model_path : Option String
  provider : String
  model : String
  groq_api_key : Option String
deriving Repr, DecidableEq

/-- The initial configuration installed by the lazy static (voice.rs lines 33-40). -/
def initialWhisperConfig : WhisperConfig :=
  { api_key := none
    use_local := false
    model_path := none
    provider := "openai"
    model := "whisper-1"
    groq_api_key := none }

/-- The configuration mutator `configure_whisper` (voice.rs lines 69-88).
The Rust function mutates the global config in place; here it maps the prior
configuration to the new one.  Only `provider` and `model` are guarded by an
option check in the source; the remaining fields are assigned unconditionally. -/
def configure_whisper (c : WhisperConfig) (api_key : Option String)
    (use_local : Bool) (model_path : Option String) (provider : Option String)
    (model : Option String) (groq_api_key : Option String) : WhisperConfig :=
  { api_key := api_key
    use_local := use_local
    model_path := model_path
    provider := provider.getD c.provider
    model := model.getD c.model
    groq_api_key := groq_api_key }

/-- Linear-interpolation resampler `resample` (voice.rs lines 301-321).
In the source, `(samples.len() as f64 / ratio) as usize` truncates a
nonnegative value, i.e. takes its floor; `samples.getD i 0` stands for the
index accesses `samples[idx_floor]` / `samples[idx_ceil]` (always in bounds
in the source). -/
def resample (samples : List ℚ) (from_rate to_rate : ℕ) : List ℚ :=
  if from_rate = to_rate then samples
  else
    let ratio : ℚ := (from_rate : ℚ) / (to_rate : ℚ)
    let new_len : ℕ := Nat.floor ((samples.length : ℚ) / ratio)
    (List.range new_len).map (fun (i : ℕ) =>
      let src_idx : ℚ := (i : ℚ) * ratio
      let idx_floor : ℕ := Nat.floor src_idx
      let idx_ceil : ℕ := min (idx_floor + 1) (samples.length - 1)
      let frac : ℚ := src_idx - (idx_floor : ℚ)
      samples.getD idx_floor 0 * (1 - frac) + samples.getD idx_ceil 0 * frac)

/-- The 16 kHz sample sequence prepared at the start of `transcribe_audio`
(voice.rs lines 326-332): resample unless the input is already at 16000 Hz. -/
def samples_16k (samples : List ℚ) (sample_rate : ℕ) : List ℚ :=
  if sample_rate ≠ 16000 then resample samples sample_rate 16000 else samples

/-- The rate paired with `samples_16k` in `transcribe_audio`
(voice.rs lines 326-332). -/
def rate_16k (sample_rate : ℕ) : ℕ :=
  if sample_rate ≠ 16000 then 16000 else sample_rate

/-- Outcome of one transcription attempt, as decided by `transcribe_audio`
(voice.rs lines 324-373).  `localEngine`, `groq` and `openai` record which
backend is invoked and with which credential/model; `placeholder d` stands
for `Ok(Some(text))` where the text describes the segment duration `d` in
seconds (voice.rs lines 366-369); `noResult` stands for `Ok(None)`
(voice.rs line 371). -/
inductive Route where
  | localEngine (model_path : String)
  | groq (api_key : String) (model : String)
  | openai (api_key : String)
  | placeholder (duration_secs : ℚ)
  | noResult
deriving Repr, DecidableEq

/-- The no-backend tail of `transcribe_audio` (voice.rs lines 363-372):
`duration_secs = samples_16k.len() / rate_16k`; emit a placeholder above
half a second, otherwise nothing. -/
def noBackend (n r : ℕ) : Route :=
  let duration_secs : ℚ := (n : ℚ) / (r : ℚ)
  if 1 / 2 < duration_secs then Route.placeholder duration_secs else Route.noResult

/-- The transcription router `transcribe_audio` (voice.rs lines 324-373),
embedded as the function computing which backend the attempt invokes.
`feature` is the `whisper-local` cargo feature: the local branch
(voice.rs lines 337-342) exists only in builds with that feature. -/
def transcribe_audio (feature : Bool) (c : WhisperConfig) (samples : List ℚ)
    (sample_rate : ℕ) : Route :=
  if feature && c.use_local && c.model_path.isSome then
    Route.localEngine (c.model_path.getD "")
  else if c.provider = "groq" then
    match c.groq_api_key with
    | some key => Route.groq key c.model
    | none =>
      match c.api_key with
      | some key => Route.openai key
      | none => noBackend (samples_16k samples sample_rate).length (rate_16k sample_rate)
  else
    match c.api_key with
    | some key => Route.openai key
    | none => noBackend (samples_16k samples sample_rate).length (rate_16k sample_rate)

/-- Two little-endian bytes of a 16-bit value. -/
def u16le (v : ℕ) : List ℕ :=
  [v % 256, v / 256 % 256]

/-- Four little-endian bytes of a 32-bit value. -/
def u32le (v : ℕ) : List ℕ :=
  [v % 256, v / 256 % 256, v / 2 ^ 16 % 256, v / 2 ^ 24 % 256]

/-- Conversion of one float sample to a signed 16-bit integer
(voice.rs line 509): scale by 32767, clamp to the i16 range, truncate
toward zero. -/
def i16_of_sample (s : ℚ) : ℤ :=
  let x : ℚ := s * 32767
  let clamped : ℚ := max (-32768) (min 32767 x)
  if clamped < 0 then -Rat.floor (-clamped) else Rat.floor clamped

/-- Modelled from the spec: the two data bytes one 16-bit sample contributes
to the WAV body.  The byte layout itself is produced by the external `hound`
crate, which is not under src/; the spec fixes a canonical single-channel
16-bit signed PCM container, whose samples are stored as two's-complement
little-endian pairs. -/
def sampleBytes (s : ℚ) : List ℕ :=
  u16le ((i16_of_sample s % 65536).toNat)

/-- The WAV body: two bytes per sample. -/
def wavData (samples : List ℚ) : List ℕ :=
  (samples.map sampleBytes).flatten

/-- Modelled from the spec: the standard fixed-size 44-byte WAV header for
single-channel 16-bit PCM, as written by the external `hound` crate (not
under src/) for the `WavSpec` of voice.rs lines 496-501: RIFF chunk,
`fmt ` chunk (PCM, 1 channel, 16 bits), `data` chunk header. -/
def wavHeader (sample_rate : ℕ) (dataLen : ℕ) : List ℕ :=
  [82, 73, 70, 70] ++ u32le (36 + dataLen) ++ [87, 65, 86, 69] ++
  [102, 109, 116, 32] ++ u32le 16 ++ u16le 1 ++ u16le 1 ++
  u32le sample_rate ++ u32le (sample_rate * 2) ++ u16le 2 ++ u16le 16 ++
  [100, 97, 116, 97] ++ u32le dataLen

/-- The full WAV byte sequence: header followed by body. -/
def wavBytes (samples : List ℚ) (sample_rate : ℕ) : List ℕ :=
  wavHeader sample_rate (wavData samples).length ++ wavData samples

/-- The WAV encoder `samples_to_wav` (voice.rs lines 495-517).  The source
returns `Result<Vec<u8>, String>`; with an in-memory cursor the write cannot
fail, so the embedding always returns `Except.ok`. -/
def samples_to_wav (samples : List ℚ) (sample_rate : ℕ) : Except String (List ℕ) :=
  Except.ok (wavBytes samples sample_rate)

/-- The model-name substitution inside `transcribe_groq`
(voice.rs lines 423-427), bound to `groq_model` in the source. -/
def groq_model (model : String) : String :=
  if model.isEmpty || model == "whisper-1" then "whisper-large-v3-turbo" else model

/-- The fields of one HTTP transcription request, as assembled by
`transcribe_openai` (voice.rs lines 376-398) and `transcribe_groq`
(voice.rs lines 412-439): endpoint, bearer credential, multipart file part
(bytes, filename, MIME type), and the `model` and `language` text fields. -/
structure TranscriptionRequest where
  url : String
  bearer : String
  file : List ℕ
  fileName : String
  mime : String
  model : String
  language : String
deriving Repr, DecidableEq

/-- The request `transcribe_openai` sends (voice.rs lines 376-398).  The
`model` field is the literal string written at voice.rs line 390. -/
def transcribe_openai_request (samples : List ℚ) (sample_rate : ℕ)
    (api_key : String) : TranscriptionRequest :=
  { url := "https://api.openai.com/v1/audio/transcriptions"
    bearer := api_key
    file := wavBytes samples sample_rate
    fileName := "audio.wav"
    mime := "audio/wav"
    model := "whisper-1"
    language := "en" }

/-- The request `transcribe_groq` sends (voice.rs lines 412-439). -/
def transcribe_groq_request (samples : List ℚ) (sample_rate : ℕ)
    (api_key model : String) : TranscriptionRequest :=
  { url := "https://api.groq.com/openai/v1/audio/transcriptions"
    bearer := api_key
    file := wavBytes samples sample_rate
    fileName := "audio.wav"
    mime := "audio/wav"
    model := groq_model model
    language := "en" }

/-- The shared audio buffer, from `AudioBuffer` in voice.rs lines 10-13. -/
structure AudioBuffer where
  samples : List ℚ
  sample_rate : ℕ
deriving Repr, DecidableEq

/-- Downmix of one incoming frame block in the capture callback
(voice.rs lines 197-212): stereo averages the pair (full pairs only),
mono passes through, more channels keep the first sample of each frame. -/
def monoConvert (channels : ℕ) (data : List ℚ) : List ℚ :=
  if channels = 2 then
    (List.toChunks 2 data).filterMap (fun chunk =>
      match chunk with
      | [a, b] => some ((a + b) / 2)
      | _ => none)
  else if channels = 1 then data
  else (List.toChunks channels data).filterMap (fun chunk => chunk.head?)

/-- Mean square energy of a buffer.  The source (voice.rs lines 219-221)
computes `rms = sqrt(sum sᵢ² / n)` and compares `rms > 0.01`; the embedding
keeps the square, so the gate reads `rmsSq > 1/10000`. -/
def rmsSq (samples : List ℚ) : ℚ :=
  (samples.map (fun s => s * s)).sum / (samples.length : ℚ)

/-- One invocation of the capture callback (voice.rs lines 189-259): early
exit if not capturing, downmix and append, and once one segmentation window
(`sample_rate * 1` samples) has accumulated, either dispatch the drained
segment (RMS above threshold) or discard it (silence); the buffer is cleared
in both cases.  Returns the post-invocation buffer and the dispatched
segment, if any, as the pair of sample data and rate handed to the worker. -/
def captureCallback (capturing : Bool) (channels : ℕ) (buffer : AudioBuffer)
    (data : List ℚ) : AudioBuffer × Option (List ℚ × ℕ) :=
  if !capturing then (buffer, none)
  else
    let samples := buffer.samples ++ monoConvert channels data
    let samples_per_chunk := buffer.sample_rate * 1
    if samples_per_chunk ≤ samples.length then
      if 1 / 10000 < rmsSq samples then
        (⟨[], buffer.sample_rate⟩, some (samples, buffer.sample_rate))
      else
        (⟨[], buffer.sample_rate⟩, none)
    else
      (⟨samples, buffer.sample_rate⟩, none)

/-- One period of a full-scale sine wave at one quarter of the sample rate:
`sin(2π (r/4) i / r) = sin(π i / 2)` cycles through 0, 1, 0, -1, so the
samples are exact rationals. -/
def sineBlock : List ℚ :=
  [0, 1, 0, -1]

/-- A full-scale sine-wave buffer of `4 * k` samples: `k` periods of a sine
at one quarter of the sample rate. -/
def sineWindow (k : ℕ) : List ℚ :=
  (List.replicate k sineBlock).flatten

/-! Helper lemmas. -/

/-- Each encoded sample contributes exactly two bytes. -/
lemma sampleBytes_length (s : ℚ) : (sampleBytes s).length = 2 := by
  simp [sampleBytes, u16le]

/-- The WAV body holds two bytes per sample. -/
lemma wavData_length (samples : List ℚ) : (wavData samples).length = 2 * samples.length := by
  induction samples with
  | nil => simp [wavData]
  | cons s rest ih =>
    simp [wavData, sampleBytes_length] at ih ⊢
    omega

/-- The modelled WAV header is 44 bytes long, for every rate and body size. -/
lemma wavHeader_length (sample_rate dataLen : ℕ) :
    (wavHeader sample_rate dataLen).length = 44 := by
  simp [wavHeader, u16le, u32le]

/-- The effective rate after the resampling step is always 16000. -/
lemma rate_16k_eq (sample_rate : ℕ) : rate_16k sample_rate = 16000 := by
  unfold rate_16k
  split
  · rfl
  · omega

/-- Mono downmix with a single channel passes the data through. -/
lemma monoConvert_one (data : List ℚ) : monoConvert 1 data = data := by
  simp [monoConvert]

/-- Sum of squares of the quarter-rate sine buffer: each period contributes 2. -/
lemma sineWindow_sumSq (k : ℕ) :
    ((sineWindow k).map (fun s => s * s)).sum = 2 * k := by
  induction k with
  | zero => simp [sineWindow]
  | succ n ih =>
    simp only [sineWindow, List.replicate_succ, List.flatten_cons, List.map_append,
      List.sum_append] at ih ⊢
    rw [ih]
    norm_num [sineBlock]
    ring

/-- The quarter-rate sine buffer has 4 samples per period. -/
lemma sineWindow_length (k : ℕ) : (sineWindow k).length = 4 * k := by
  induction k with
  | zero => simp [sineWindow]
  | succ n ih =>
    simp only [sineWindow, List.replicate_succ, List.flatten_cons,
      List.length_append] at ih ⊢
    rw [ih]
    simp [sineBlock]
    ring

end Koe

namespace Koe

/-- C7: resampling is the identity when the source and target rates agree,
for every non-empty sample sequence (voice.rs lines 302-304). -/
theorem C7_resample_identity (samples : List ℚ) (rate : ℕ)
    (hne : samples ≠ []) : resample samples rate rate = samples := by
  simp [resample]

/-- Witness for C7 at a concrete non-empty input. -/
theorem C7_resample_identity_witness :
    resample [1, 2, 3] 5 5 = [1, 2, 3] :=
  C7_resample_identity [1, 2, 3] 5 (by decide)

/-- C2 counterexample: the claim that every unspecified field of the
transcription configuration retains its previous value is false — a call
passing no value for `api_key` clears a previously stored key
(voice.rs line 78 assigns it unconditionally). -/
theorem C2_counterexample :
    (configure_whisper
        { api_key := some "old-key", use_local := false, model_path := none,
          provider := "openai", model := "whisper-1", groq_api_key := none }
        none false none none none none).api_key ≠ some "old-key" := by
  decide

/-- C2 amended: only the `provider` and `model` fields retain their previous
values when unspecified (voice.rs lines 81-86); `api_key`, `model_path` and
`groq_api_key` are replaced by the passed value even when that value is
absent, and `use_local` is always specified. -/
theorem C2_retained_fields (c : WhisperConfig) (a : Option String) (u : Bool)
    (mp g : Option String) :
    (configure_whisper c a u mp none none g).provider = c.provider ∧
    (configure_whisper c a u mp none none g).model = c.model ∧
    (configure_whisper c a u mp none none g).api_key = a ∧
    (configure_whisper c a u mp none none g).model_path = mp ∧
    (configure_whisper c a u mp none none g).groq_api_key = g := by
  simp [configure_whisper]

/-- C10: a request to the fast provider silently replaces an empty or
`whisper-1` configured model identifier with `whisper-large-v3-turbo`, and
sends any other identifier unchanged (voice.rs lines 423-431). -/
theorem C10_groq_model_substitution (samples : List ℚ) (sample_rate : ℕ)
    (key model : String) :
    ((model = "" ∨ model = "whisper-1") →
      (transcribe_groq_request samples sample_rate key model).model =
        "whisper-large-v3-turbo") ∧
    (model ≠ "" → model ≠ "whisper-1" →
      (transcribe_groq_request samples sample_rate key model).model = model) := by
  constructor
  · rintro (rfl | rfl) <;> rfl
  · intro h1 h2
    simp [transcribe_groq_request, groq_model, String.isEmpty_iff, h1, h2]

/-- Witness for C10 at concrete model identifiers. -/
theorem C10_groq_model_substitution_witness :
    (transcribe_groq_request [] 16000 "gk" "whisper-1").model =
      "whisper-large-v3-turbo" ∧
    (transcribe_groq_request [] 16000 "gk" "distil-whisper").model =
      "distil-whisper" :=
  ⟨(C10_groq_model_substitution [] 16000 "gk" "whisper-1").1 (Or.inr rfl),
   (C10_groq_model_substitution [] 16000 "gk" "distil-whisper").2
     (by decide) (by decide)⟩

/-- Length of the resampler output for distinct rates: the floor of
`N / (from/to)`, which over the rationals is the natural division
`N * to / from`. -/
lemma resample_length_ne (samples : List ℚ) (from_rate to_rate : ℕ)
    (h : from_rate ≠ to_rate) :
    (resample samples from_rate to_rate).length =
      samples.length * to_rate / from_rate := by
  unfold resample
  rw [if_neg h, List.length_map, List.length_range, div_div_eq_mul_div,
    ← Nat.cast_mul, Nat.floor_div_eq_div (α := ℚ)]

/-- C6: for distinct positive rates, `resample` yields exactly
`floor(N / (fromRate/toRate)) = N * toRate / fromRate` samples; at
48000 to 16000 this is `floor(N/3)` (voice.rs lines 306-310). -/
theorem C6_resample_length (samples : List ℚ) (from_rate to_rate : ℕ)
    (hf : 0 < from_rate) (ht : 0 < to_rate) (hne : from_rate ≠ to_rate) :
    (resample samples from_rate to_rate).length =
      samples.length * to_rate / from_rate ∧
    (resample samples 48000 16000).length = samples.length / 3 := by
  refine ⟨resample_length_ne samples _ _ hne, ?_⟩
  rw [resample_length_ne samples 48000 16000 (by norm_num)]
  omega

/-- Witness for C6: 7 samples resampled from 48000 Hz to 16000 Hz become
`floor(7/3) = 2` samples. -/
theorem C6_resample_length_witness :
    (resample (List.replicate 7 (0 : ℚ)) 48000 16000).length = 2 := by
  have h := C6_resample_length (List.replicate 7 (0 : ℚ)) 48000 16000
    (by norm_num) (by norm_num) (by norm_num)
  simpa using h.2

/-- C9: the capture-callback invariant — if the buffer held fewer samples
than one segmentation window before the invocation, it still does at the
end, because reaching the window clears it in both the dispatch and the
silence branch (voice.rs lines 217-258). -/
theorem C9_buffer_window_invariant (capturing : Bool) (channels : ℕ)
    (buffer : AudioBuffer) (data : List ℚ)
    (hr : 0 < buffer.sample_rate)
    (hpre : buffer.samples.length < buffer.sample_rate * 1) :
    ((captureCallback capturing channels buffer data).1).samples.length <
      buffer.sample_rate * 1 := by
  unfold captureCallback
  cases capturing with
  | false => simpa using hpre
  | true =>
    simp only [Bool.not_true, Bool.false_eq_true, if_false]
    by_cases hlen : buffer.sample_rate * 1 ≤
        (buffer.samples ++ monoConvert channels data).length
    · rw [if_pos hlen]
      split <;>
        · show ([] : List ℚ).length < buffer.sample_rate * 1
          simpa using hr
    · rw [if_neg hlen]
      show (buffer.samples ++ monoConvert channels data).length <
        buffer.sample_rate * 1
      omega

/-- Witness for C9 at a concrete invocation. -/
theorem C9_buffer_window_invariant_witness :
    ((captureCallback true 1 ⟨[], 1⟩ []).1).samples.length < 1 * 1 :=
  C9_buffer_window_invariant true 1 ⟨[], 1⟩ [] (by decide) (by decide)

/-- C5: once the buffered samples reach one segmentation window, an all-zero
buffer has mean-square energy below the squared 0.01 threshold and is
discarded without dispatch, while a full-scale sine-wave window has energy
above the threshold and is dispatched (voice.rs lines 217-258). -/
theorem C5_energy_gate (rate k : ℕ) (buffer data : List ℚ)
    (hr : 0 < rate) (hz : ∀ s ∈ buffer ++ data, s = 0)
    (hlen : rate ≤ (buffer ++ data).length) (hk : 0 < k) :
    (rmsSq (buffer ++ data) < 1 / 10000 ∧
      captureCallback true 1 ⟨buffer, rate⟩ data = (⟨[], rate⟩, none)) ∧
    (1 / 10000 < rmsSq (sineWindow k) ∧
      captureCallback true 1 ⟨[], 4 * k⟩ (sineWindow k) =
        (⟨[], 4 * k⟩, some (sineWindow k, 4 * k))) := by
  have hsum : ((buffer ++ data).map (fun s => s * s)).sum = 0 := by
    apply List.sum_eq_zero
    intro x hx
    obtain ⟨s, hs, rfl⟩ := List.mem_map.1 hx
    rw [hz s hs]
    ring
  have hz_rms : rmsSq (buffer ++ data) = 0 := by
    unfold rmsSq
    rw [hsum, zero_div]
  have hk' : (k : ℚ) ≠ 0 := by exact_mod_cast hk.ne'
  have hs_rms : rmsSq (sineWindow k) = 1 / 2 := by
    rw [rmsSq, sineWindow_sumSq, sineWindow_length]
    push_cast
    field_simp
    ring
  refine ⟨⟨by rw [hz_rms]; norm_num, ?_⟩, ⟨by rw [hs_rms]; norm_num, ?_⟩⟩
  · unfold captureCallback
    simp only [Bool.not_true, Bool.false_eq_true, if_false, monoConvert_one]
    rw [if_pos (by simpa using hlen), if_neg (by rw [hz_rms]; norm_num)]
  · unfold captureCallback
    simp only [Bool.not_true, Bool.false_eq_true, if_false, monoConvert_one,
      List.nil_append]
    rw [if_pos (by rw [sineWindow_length]; omega),
      if_pos (by rw [hs_rms]; norm_num)]

/-- Witness for C5: a two-sample zero buffer at rate 1 is discarded, and one
period of the quarter-rate sine is dispatched. -/
theorem C5_energy_gate_witness :
    (rmsSq ([0] ++ [0]) < 1 / 10000 ∧
      captureCallback true 1 ⟨[0], 1⟩ [0] = (⟨[], 1⟩, none)) ∧
    (1 / 10000 < rmsSq (sineWindow 1) ∧
      captureCallback true 1 ⟨[], 4 * 1⟩ (sineWindow 1) =
        (⟨[], 4 * 1⟩, some (sineWindow 1, 4 * 1))) :=
  C5_energy_gate 1 1 [0] [0] (by decide) (by decide) (by decide) (by decide)

/-- The no-backend tail never routes to the fast provider. -/
lemma noBackend_ne_groq (n r : ℕ) (key m : String) :
    noBackend n r ≠ Route.groq key m := by
  show (if 1 / 2 < (n : ℚ) / (r : ℚ) then
      Route.placeholder ((n : ℚ) / (r : ℚ)) else Route.noResult) ≠
    Route.groq key m
  split <;> simp

/-- C1: with no local engine in use, a groq-selected attempt with a groq
credential calls groq; when the groq credential is absent or groq is not
selected, the attempt reaches the default provider exactly when the default
credential is present (voice.rs lines 344-361). -/
theorem C1_provider_fallback (feature : Bool) (c : WhisperConfig)
    (samples : List ℚ) (sample_rate : ℕ)
    (hlocal : (feature && c.use_local && c.model_path.isSome) = false) :
    (∀ key, c.provider = "groq" → c.groq_api_key = some key →
      transcribe_audio feature c samples sample_rate = Route.groq key c.model) ∧
    ((c.groq_api_key = none ∨ c.provider ≠ "groq") →
      ((∃ key, c.api_key = some key ∧
          transcribe_audio feature c samples sample_rate = Route.openai key) ↔
        c.api_key ≠ none)) := by
  constructor
  · intro key hp hk
    simp [transcribe_audio, hlocal, hp, hk]
  · intro hcase
    constructor
    · rintro ⟨key, hak, _⟩
      rw [hak]
      simp
    · intro hak
      obtain ⟨key, hkey⟩ := Option.ne_none_iff_exists'.mp hak
      refine ⟨key, hkey, ?_⟩
      by_cases hp : c.provider = "groq"
      · rcases hcase with hgk | hp2
        · simp [transcribe_audio, hlocal, hp, hgk, hkey]
        · exact absurd hp hp2
      · simp [transcribe_audio, hlocal, hp, hkey]

/-- Witness for C1: a groq credential routes to groq; groq selected with no
groq credential but a default credential falls back to the default
provider. -/
theorem C1_provider_fallback_witness :
    transcribe_audio false
        { api_key := none, use_local := false, model_path := none,
          provider := "groq", model := "whisper-1", groq_api_key := some "gk" }
        [] 16000 = Route.groq "gk" "whisper-1" ∧
    transcribe_audio false
        { api_key := some "ok", use_local := false, model_path := none,
          provider := "groq", model := "whisper-1", groq_api_key := none }
        [] 16000 = Route.openai "ok" := by
  constructor
  · exact (C1_provider_fallback false _ [] 16000 rfl).1 "gk" rfl rfl
  · have h := (C1_provider_fallback false
        { api_key := some "ok", use_local := false, model_path := none,
          provider := "groq", model := "whisper-1", groq_api_key := none }
        [] 16000 rfl).2 (Or.inl rfl)
    obtain ⟨key, hk, hr⟩ := h.mpr (by simp)
    obtain rfl : "ok" = key := Option.some.inj hk
    exact hr

/-- C4: with no local engine in use and neither credential present, the
attempt yields a placeholder describing the 16 kHz segment duration exactly
when that duration exceeds half a second, and yields no result when the
duration is at most half a second (voice.rs lines 363-372). -/
theorem C4_placeholder_gate (feature : Bool) (c : WhisperConfig)
    (samples : List ℚ) (sample_rate : ℕ)
    (hlocal : (feature && c.use_local && c.model_path.isSome) = false)
    (hak : c.api_key = none) (hgk : c.groq_api_key = none) :
    (transcribe_audio feature c samples sample_rate =
        Route.placeholder
          (((samples_16k samples sample_rate).length : ℚ) / 16000) ↔
      1 / 2 < ((samples_16k samples sample_rate).length : ℚ) / 16000) ∧
    (((samples_16k samples sample_rate).length : ℚ) / 16000 ≤ 1 / 2 →
      transcribe_audio feature c samples sample_rate = Route.noResult) := by
  have hroute : transcribe_audio feature c samples sample_rate =
      noBackend (samples_16k samples sample_rate).length 16000 := by
    rw [show (16000 : ℕ) = rate_16k sample_rate from (rate_16k_eq sample_rate).symm]
    by_cases hp : c.provider = "groq"
    · simp [transcribe_audio, hlocal, hp, hgk, hak]
    · simp [transcribe_audio, hlocal, hp, hak]
  have hroute2 : transcribe_audio feature c samples sample_rate =
      if 1 / 2 < ((samples_16k samples sample_rate).length : ℚ) / 16000 then
        Route.placeholder
          (((samples_16k samples sample_rate).length : ℚ) / 16000)
      else Route.noResult := by
    rw [hroute]
    simp only [noBackend, Nat.cast_ofNat]
  rw [hroute2]
  constructor
  · split_ifs with hgt
    · exact ⟨fun _ => hgt, fun _ => rfl⟩
    · refine ⟨fun hcontra => absurd hcontra (by simp), fun hlt => absurd hlt hgt⟩
  · intro hle
    rw [if_neg (not_lt.mpr hle)]

/-- Witness for C4: 9600 zero samples at 16000 Hz (0.6 s) yield a
placeholder; 4800 samples (0.3 s) yield no result. -/
theorem C4_placeholder_gate_witness :
    transcribe_audio false initialWhisperConfig
        (List.replicate 9600 0) 16000 = Route.placeholder (3 / 5) ∧
    transcribe_audio false initialWhisperConfig
        (List.replicate 4800 0) 16000 = Route.noResult := by
  have hs : ∀ l : List ℚ, samples_16k l 16000 = l := by
    intro l
    unfold samples_16k
    simp
  have hL1 : (samples_16k (List.replicate 9600 (0 : ℚ)) 16000).length = 9600 := by
    rw [hs, List.length_replicate]
  have hL2 : (samples_16k (List.replicate 4800 (0 : ℚ)) 16000).length = 4800 := by
    rw [hs, List.length_replicate]
  have h1 := (C4_placeholder_gate false initialWhisperConfig
    (List.replicate 9600 0) 16000 rfl rfl rfl).1
  rw [hL1] at h1
  have h2 := (C4_placeholder_gate false initialWhisperConfig
    (List.replicate 4800 0) 16000 rfl rfl rfl).2
  rw [hL2] at h2
  refine ⟨?_, h2 (by norm_num)⟩
  have h3 := h1.mpr (by norm_num)
  rw [show ((9600 : ℕ) : ℚ) / 16000 = 3 / 5 by norm_num] at h3
  exact h3

/-- C3 counterexample: the claim that every remote attempt sends the
configured model identifier is false — a default-provider attempt with the
model configured to `whisper-large-v3-turbo` sends the hardcoded
`whisper-1` (voice.rs line 390). -/
theorem C3_counterexample :
    transcribe_audio false
        { api_key := some "sk", use_local := false, model_path := none,
          provider := "openai", model := "whisper-large-v3-turbo",
          groq_api_key := none }
        [] 16000 = Route.openai "sk" ∧
    (transcribe_openai_request [] 16000 "sk").model = "whisper-1" ∧
    (transcribe_openai_request [] 16000 "sk").model ≠ "whisper-large-v3-turbo" := by
  refine ⟨?_, rfl, by decide⟩
  simp [transcribe_audio]

/-- C3 amended: the configured model identifier is consulted only by the
fast-provider path.  A request to the default provider always carries the
fixed model `whisper-1` regardless of configuration, while a request to the
fast provider carries the configured identifier after the groq default
substitution (voice.rs lines 348, 390, 423-431). -/
theorem C3_model_field (feature : Bool) (c : WhisperConfig) (samples : List ℚ)
    (sample_rate : ℕ) :
    (∀ key, transcribe_audio feature c samples sample_rate = Route.openai key →
      (transcribe_openai_request samples sample_rate key).model = "whisper-1") ∧
    (∀ key m, transcribe_audio feature c samples sample_rate = Route.groq key m →
      m = c.model ∧
      (transcribe_groq_request samples sample_rate key m).model =
        groq_model c.model) := by
  constructor
  · intro key _
    rfl
  · intro key m h
    have hm : m = c.model := by
      by_cases hl : (feature && c.use_local && c.model_path.isSome) = true
      · unfold transcribe_audio at h
        rw [if_pos hl] at h
        simp at h
      · have hl' : (feature && c.use_local && c.model_path.isSome) = false := by
          simpa using hl
        by_cases hp : c.provider = "groq"
        · rcases hgk : c.groq_api_key with _ | gkey
          · rcases hak : c.api_key with _ | akey
            · simp [transcribe_audio, hl', hp, hgk, hak] at h
              exact absurd h (noBackend_ne_groq _ _ _ _)
            · simp [transcribe_audio, hl', hp, hgk, hak] at h
          · simp [transcribe_audio, hl', hp, hgk] at h
            exact h.2.symm
        · rcases hak : c.api_key with _ | akey
          · simp [transcribe_audio, hl', hp, hak] at h
            exact absurd h (noBackend_ne_groq _ _ _ _)
          · simp [transcribe_audio, hl', hp, hak] at h
    subst hm
    exact ⟨rfl, rfl⟩

/-- Witness for C3 amended, at a default-provider attempt and a
fast-provider attempt. -/
theorem C3_model_field_witness :
    (transcribe_openai_request [] 16000 "ok").model = "whisper-1" ∧
    (transcribe_groq_request [] 16000 "gk" "distil-whisper").model =
      groq_model "distil-whisper" := by
  have h1 := (C3_model_field false
    { api_key := some "ok", use_local := false, model_path := none,
      provider := "openai", model := "whisper-1", groq_api_key := none }
    [] 16000).1 "ok" (by simp [transcribe_audio])
  have h2 := (C3_model_field false
    { api_key := none, use_local := false, model_path := none,
      provider := "groq", model := "distil-whisper", groq_api_key := some "gk" }
    [] 16000).2 "gk" "distil-whisper" (by simp [transcribe_audio])
  exact ⟨h1, h2.2⟩

/-- C8: WAV encoding always succeeds and yields exactly 44 + 2K bytes for K
samples; zero samples yield exactly the 44-byte header-only container
(voice.rs lines 495-517, byte layout modelled from the spec). -/
theorem C8_wav_size (samples : List ℚ) (sample_rate : ℕ) :
    ∃ bytes, samples_to_wav samples sample_rate = Except.ok bytes ∧
      bytes.length = 44 + 2 * samples.length ∧
      (samples = [] → bytes = wavHeader sample_rate 0) := by
  refine ⟨wavBytes samples sample_rate, rfl, ?_, ?_⟩
  · simp [wavBytes, wavData_length, wavHeader_length]
  · rintro rfl
    simp [wavBytes, wavData]

end Koe

